import Mathlib

/-!
Shallow embedding of the interview-practice core: the dialogue controller
(`src/agent.py`, class `InterviewAgent`) and the provider gateway
(`src/llm_client.py`, class `LLMClient`).

Python strings are embedded as Lean `String`; Python's `in` (substring
containment), `.lower()`, `.split(sep)` and `.strip()` are modelled by
`pyContains`, `pyLower`, `pySplit` and `pyStrip`, implemented by
structural recursion over the character list so that the kernel can
evaluate them on concrete inputs (`String.splitOn`, `trim` and `toLower`
agree on the source's inputs but do not reduce definitionally).

Provider calls (network operations that may raise) are modelled as oracle
functions returning `Except String String`: `.ok text` is a normal return
and `.error e` is a raised exception whose message is `e`. The controller's
turn functions thread the mutated agent state explicitly and return the
reply as an `Except` (an `.error` reply is an exception propagating out of
`process_input`); they additionally log the list of provider requests
issued during the turn, which instruments "how many provider calls
happened" without altering any behaviour.
-/

/-- Whether `p` is a prefix of the character list `s`. -/
def isPre : List Char → List Char → Bool
  | [], _ => true
  | _ :: _, [] => false
  | p :: ps, c :: cs => p == c && isPre ps cs

/-- Left-to-right scan splitting `text` at each non-overlapping occurrence
of the non-empty separator `sep`; `fuel` bounds the recursion (any fuel
above `text.length` is never exhausted since each step consumes a
character). -/
def splitAux (sep : List Char) : Nat → List Char → List Char → List (List Char)
  | _, [], acc => [acc.reverse]
  | 0, text, acc => [acc.reverse ++ text]
  | fuel + 1, c :: rest, acc =>
    if isPre sep (c :: rest) then
      acc.reverse :: splitAux sep fuel (List.drop (sep.length - 1) rest) []
    else
      splitAux sep fuel rest (c :: acc)

/-- Python `s.split(sep)` for a non-empty `sep` (identical to Lean's
`String.splitOn` on such separators): the pieces of `s` between the
non-overlapping occurrences of `sep`, leading/trailing occurrences giving
empty pieces. -/
def pySplit (s sep : String) : List String :=
  (splitAux sep.data (s.data.length + 1) s.data []).map String.mk

/-- Python substring containment `sub in s`: for a non-empty `sub` the
split has more than one piece exactly when `sub` occurs in `s`;
Python's `"" in s` is `True`, matched by the first branch. -/
def pyContains (s sub : String) : Bool :=
  if sub = "" then true else (pySplit s sub).length > 1

/-- Python `str.lower()` (the source only lowercases ASCII text, where
`Char.toLower` agrees with Python). -/
def pyLower (s : String) : String :=
  String.mk (s.data.map Char.toLower)

/-- Python `str.strip()`: drops whitespace from both ends (the source only
strips spaces and newlines, on which `Char.isWhitespace` agrees with
Python's whitespace set). -/
def pyStrip (s : String) : String :=
  String.mk (((s.data.dropWhile Char.isWhitespace).reverse.dropWhile Char.isWhitespace).reverse)

/-- A chat message: Python dict `{"role": ..., "content": ...}`. -/
structure Msg where
  role : String
  content : String
deriving DecidableEq, Repr

/-- `InterviewStage` enum of `src/agent.py`. -/
inductive InterviewStage where
  | ROLE_SELECTION
  | INTERVIEW
  | FEEDBACK
  | FINISHED
deriving DecidableEq, Repr

/-- The mutable fields of `InterviewAgent` (`src/agent.py`, `__init__`).
The `llm_client` reference is passed to each operation as an oracle
instead of being stored. -/
structure InterviewAgent where
  history : List Msg
  stage : InterviewStage
  role : Option String
  question_count : Nat
  max_questions : Nat
deriving DecidableEq, Repr

/-- A fresh `InterviewAgent(llm_client)`: empty history, ROLE_SELECTION,
no role, zero questions, `max_questions = 5`. -/
def InterviewAgent.init : InterviewAgent :=
  { history := [], stage := .ROLE_SELECTION, role := none
    question_count := 0, max_questions := 5 }

/-- The provider call `llm_client.get_response(messages)` as the controller
sees it: a function of the request that either returns text or raises. -/
abbrev LLM : Type := List Msg → Except String String

/-- Initial system prompt seeded by `InterviewAgent.start`. -/
def initialSystemPrompt : String :=
  "You are a helpful assistant designed to help users prepare for job interviews. Your goal is to facilitate a mock interview practice session."

/-- The greeting returned by `InterviewAgent.start`. -/
def startGreeting : String :=
  "Hello! I'm your Interview Practice Partner. I can help you prepare for job interviews by conducting mock interviews and providing feedback.\n\nTo get started, please tell me what job role you would like to practice for (e.g., Software Engineer, Sales Associate, Retail Manager)."

/-- `InterviewAgent.start` (`src/agent.py` lines 20-27): replaces the
history with the system prompt, appends the greeting, returns it. It does
not touch `stage`, `role` or the counters. -/
def InterviewAgent.start (a : InterviewAgent) : InterviewAgent × String :=
  ({ a with history := [⟨"system", initialSystemPrompt⟩, ⟨"assistant", startGreeting⟩] },
   startGreeting)

/-- The transient system instruction appended in `_handle_role_selection`. -/
def roleSelectionInstruction : String :=
  "The user has provided input for the role they want to practice. If they specified a valid role, acknowledge it, set the context that you are now the interviewer for that role, and ask the first interview question. If the input is unclear, ask for clarification. Start your response with 'Role Confirmed: [Role Name]' if a role is found, otherwise just ask for clarification."

/-- The interviewer system prompt written when a role is confirmed
(`src/agent.py` line 83), parameterized by the role and `max_questions`. -/
def interviewerSystemPrompt (role : String) (maxQuestions : Nat) : String :=
  let mq := toString maxQuestions
  "You are an expert interviewer for a " ++ role ++ " position. Conduct a professional mock interview. Ask one question at a time. Wait for the user's response before asking the next one. Do not overwhelm the user. If the user's answer is brief or lacks detail, ask a follow-up question. If the user goes off-topic, gently bring them back to the interview. You can end the interview if the user asks to stop or if you have asked " ++ mq ++ " questions."

/-- The deterministic transition message returned when a role is confirmed
(`src/agent.py` line 89). -/
def startMessage (role : String) : String :=
  "Great! I will act as the interviewer for the " ++ role ++ " position. Let's begin.\n\nTell me a little bit about yourself and why you are interested in this role."

/-- The feedback-request system instruction of `end_interview`. -/
def feedbackInstruction : String :=
  "The interview is now over. Please provide detailed feedback on the user's performance based on the conversation history. Assess their communication skills, technical knowledge (if applicable), and relevance to the role. Be constructive and highlight both strengths and areas for improvement. Format the output clearly."

/-- The wrap-up hint appended once `question_count > max_questions`. -/
def wrapUpInstruction : String :=
  "The user has answered several questions. Suggest concluding the interview and moving to the feedback stage, or ask one final challenging question."

/-- The fixed reply of `process_input` in the FINISHED stage. -/
def finishedMessage : String :=
  "The interview session has finished. Please restart the application to practice again."

/-- The exit-command list of `_handle_interview` (`src/agent.py` line 100). -/
def exitCommands : List String :=
  ["end interview", "stop interview", "give me feedback", "finish"]

/-- The result of one `process_input` turn: the mutated agent, the reply
(`.error e` = an exception `e` propagated out of the call), and the list of
provider requests issued during the turn (instrumentation only). -/
structure TurnResult where
  agent : InterviewAgent
  reply : Except String String
  calls : List (List Msg)
deriving Repr

/-- `InterviewAgent._handle_role_selection` (`src/agent.py` lines 50-96).
The transient instruction is appended to a copy of the history; the reply
is scanned for the literal marker; on confirmation the role is the part
after the marker, stripped, cut at the first newline and stripped again,
the stage becomes INTERVIEW, the history is replaced and the deterministic
`startMessage` is returned; otherwise the raw reply is appended and
returned. -/
def handle_role_selection (get : LLM) (a : InterviewAgent) : TurnResult :=
  let messages := a.history ++ [⟨"system", roleSelectionInstruction⟩]
  match get messages with
  | .error e => ⟨a, .error e, [messages]⟩
  | .ok response =>
    let parts := pySplit response "Role Confirmed:"
    if parts.length > 1 then
      let rolePart := pyStrip (parts.getD 1 "")
      let role :=
        if pyContains rolePart "\n" then pyStrip ((pySplit rolePart "\n").headD "")
        else rolePart
      let msg := startMessage role
      ⟨{ a with
          role := some role
          stage := .INTERVIEW
          history := [⟨"system", interviewerSystemPrompt role a.max_questions⟩,
                      ⟨"assistant", msg⟩] },
       .ok msg, [messages]⟩
    else
      ⟨{ a with history := a.history ++ [⟨"assistant", response⟩] },
       .ok response, [messages]⟩

/-- `InterviewAgent.end_interview` (`src/agent.py` lines 120-133): sets
stage FEEDBACK, appends the feedback instruction, issues one provider call
over the full history, appends the reply and sets stage FINISHED. If the
provider call raises, the exception propagates with stage still FEEDBACK. -/
def end_interview (get : LLM) (a : InterviewAgent) : TurnResult :=
  let a1 : InterviewAgent :=
    { a with
        stage := .FEEDBACK
        history := a.history ++ [⟨"system", feedbackInstruction⟩] }
  match get a1.history with
  | .error e => ⟨a1, .error e, [a1.history]⟩
  | .ok response =>
    ⟨{ a1 with
        history := a1.history ++ [⟨"assistant", response⟩]
        stage := .FINISHED },
     .ok response, [a1.history]⟩

/-- `InterviewAgent._handle_interview` (`src/agent.py` lines 98-118):
exit phrases divert to `end_interview`; otherwise the question counter is
incremented and, past `max_questions`, a wrap-up hint is appended to the
request only. -/
def handle_interview (get : LLM) (a : InterviewAgent) (userInput : String) : TurnResult :=
  if exitCommands.any (fun cmd => pyContains (pyLower userInput) cmd) then
    end_interview get a
  else
    let a1 : InterviewAgent := { a with question_count := a.question_count + 1 }
    let messages :=
      if a1.question_count > a1.max_questions then
        a1.history ++ [⟨"system", wrapUpInstruction⟩]
      else
        a1.history
    match get messages with
    | .error e => ⟨a1, .error e, [messages]⟩
    | .ok response =>
      ⟨{ a1 with history := a1.history ++ [⟨"assistant", response⟩] },
       .ok response, [messages]⟩

/-- `InterviewAgent._generate_response` (`src/agent.py` lines 44-48). -/
def generate_response (get : LLM) (a : InterviewAgent) : TurnResult :=
  match get a.history with
  | .error e => ⟨a, .error e, [a.history]⟩
  | .ok response =>
    ⟨{ a with history := a.history ++ [⟨"assistant", response⟩] },
     .ok response, [a.history]⟩

/-- `InterviewAgent.process_input` (`src/agent.py` lines 29-42): appends
the user message, then dispatches on the stage. There is no exception
handling at this boundary: an `.error` from a handler is returned as-is
(the exception propagates to the caller). -/
def process_input (get : LLM) (a : InterviewAgent) (userInput : String) : TurnResult :=
  let a1 : InterviewAgent := { a with history := a.history ++ [⟨"user", userInput⟩] }
  match a1.stage with
  | .ROLE_SELECTION => handle_role_selection get a1
  | .INTERVIEW => handle_interview get a1 userInput
  | .FEEDBACK => generate_response get a1
  | .FINISHED => ⟨a1, .ok finishedMessage, []⟩

/-- Running a sequence of `process_input` turns against one oracle. -/
def runTurns (get : LLM) (a : InterviewAgent) (inputs : List String) : InterviewAgent :=
  inputs.foldl (fun st s => (process_input get st s).agent) a

/-- Modelled from the spec: the optional-role variant of `start`
(`start(role)`), which `src/app.py` line 104 and
`tests/test_new_features.py` call but which is absent from
`src/agent.py` (its `start` takes no role argument). Per the spec: sets
`role`, stage=INTERVIEW, rewrites the transcript with the interviewer
system prompt parameterized by role and `max_questions`, and returns a
deterministic opening line inviting a self-introduction. -/
def InterviewAgent.startWithRole (a : InterviewAgent) (role : String) : InterviewAgent × String :=
  let msg := startMessage role
  ({ a with
      role := some role
      stage := .INTERVIEW
      history := [⟨"system", interviewerSystemPrompt role a.max_questions⟩,
                  ⟨"assistant", msg⟩] },
   msg)

/-!
The provider gateway: `LLMClient` of `src/llm_client.py`. Its mutable
state is `mock`, whether the OpenAI client object exists, whether Gemini
was configured, and `last_gemini_error`. Outcomes of the external provider
calls are supplied as oracles: `.ok text` is a normal return, `.error e`
is a raised exception whose `str(e)` is `e`.
-/

/-- The state of an `LLMClient` (`src/llm_client.py`, `__init__`). -/
structure ClientState where
  mock : Bool
  hasClient : Bool
  gemini_configured : Bool
  last_gemini_error : Option String
deriving DecidableEq, Repr

/-- Outcomes of the external provider calls, per call site. `gemini` and
`geminiAudio` are keyed by the model name tried. `audioReadOk` is whether
reading the audio bytes in `_transcribe_audio_gemini` succeeds. -/
structure Oracles where
  openaiChat : Except String String
  gemini : String → Except String String
  openaiWhisper : Except String String
  geminiAudio : String → Except String String
  audioReadOk : Bool

/-- Python truthiness of `Optional[str]`: `None` and `""` are falsy. -/
def pyTruthy : Option String → Bool
  | none => false
  | some s => s ≠ ""

/-- Python `a or b` over `Optional[str]` values. -/
def pyOr (a b : Option String) : Option String :=
  if pyTruthy a then a else b

/-- `LLMClient.__init__(api_key, mock)` (`src/llm_client.py` lines 16-43).
`envOpenAIKey`/`envGeminiKey` are `os.getenv("OPENAI_API_KEY")` /
`os.getenv("GEMINI_API_KEY")`; `genaiAvailable` is whether the
`google.generativeai` import succeeded and `geminiConfigOk` whether
`genai.configure` ran without raising. If no key is usable and mock was
not requested, the client switches itself to mock mode. -/
def LLMClient.init (apiKeyArg : Option String) (mock : Bool)
    (envOpenAIKey envGeminiKey : Option String)
    (genaiAvailable geminiConfigOk : Bool) : ClientState :=
  let api_key := pyOr apiKeyArg envOpenAIKey
  let hasClient := !mock && pyTruthy api_key
  let gemini_configured := pyTruthy envGeminiKey && genaiAvailable && geminiConfigOk
  let mock1 :=
    if !(pyTruthy api_key) && !gemini_configured && !mock then true else mock
  { mock := mock1, hasClient := hasClient
    gemini_configured := gemini_configured, last_gemini_error := none }

/-- `LLMClient._get_mock_response` (`src/llm_client.py` lines 229-243):
the offline deterministic responder, keyed on the last user message. -/
def get_mock_response (messages : List Msg) : String :=
  let user_inputs := (messages.filter (fun m => m.role = "user")).map (fun m => pyLower m.content)
  let last_user_input := user_inputs.getLastD ""
  if pyContains last_user_input "sales" then
    "Role Confirmed: Sales Representative\nExcellent choice. I will be interviewing you for a Sales position. Let's begin. \n\nCan you tell me about a time you had to sell a difficult product?"
  else if pyContains last_user_input "engineer" then
    "Role Confirmed: Software Engineer\nExcellent choice. I will be interviewing you for a Software Engineer position. Let's begin. \n\nCan you describe a challenging technical problem you solved recently?"
  else
    "That's an interesting point. Could you elaborate on that? (Mock response)"

/-- The authentication-class test of the Gemini loops
(`"API_KEY_INVALID" in error_str or "API key not valid" in error_str`). -/
def isAuthError (e : String) : Bool :=
  pyContains e "API_KEY_INVALID" || pyContains e "API key not valid"

/-- The model-not-found-class test (`"404" in error_str or "not found" in
error_str`). -/
def isNotFoundError (e : String) : Bool :=
  pyContains e "404" || pyContains e "not found"

/-- The fixed model-variant order of `_get_gemini_response`. -/
def geminiModels : List String :=
  ["gemini-1.5-flash", "gemini-1.5-pro", "gemini-pro"]

/-- The loop body of `_get_gemini_response` over the remaining model
variants: returns (text if some variant succeeded, the recorded
`last_gemini_error`, the variants attempted in order). An auth-class
failure records the error and breaks; a not-found-class failure and any
other failure both advance to the next variant. -/
def geminiTry (g : String → Except String String) : List String → Option String × Option String × List String
  | [] => (none, none, [])
  | m :: rest =>
    match g m with
    | .ok r => (some r, none, [m])
    | .error e =>
      if isAuthError e then
        (none, some "Gemini API Key is invalid.", [m])
      else if isNotFoundError e then
        let (res, err, att) := geminiTry g rest
        (res, err, m :: att)
      else
        let (res, err, att) := geminiTry g rest
        (res, err, m :: att)

/-- `LLMClient._get_gemini_response` (`src/llm_client.py` lines 75-117):
resets `last_gemini_error`, tries the variants via `geminiTry`, and falls
back to the mock responder when every variant failed. Also returns the
list of variants attempted (instrumentation only). -/
def get_gemini_response (c : ClientState) (o : Oracles) (messages : List Msg) :
    ClientState × String × List String :=
  let (res, err, att) := geminiTry o.gemini geminiModels
  let c1 : ClientState := { c with last_gemini_error := err }
  match res with
  | some r => (c1, r, att)
  | none => (c1, get_mock_response messages, att)

/-- `LLMClient.get_response` (`src/llm_client.py` lines 45-73): mock mode
short-circuits to the offline responder; otherwise OpenAI is tried when
configured (any exception falls through), then Gemini when configured,
then the offline responder. The function is total: no path re-raises. -/
def get_response (c : ClientState) (o : Oracles) (messages : List Msg) :
    ClientState × String :=
  if c.mock then (c, get_mock_response messages)
  else
    match (if c.hasClient then some o.openaiChat else none) with
    | some (.ok r) => (c, r)
    | _ =>
      if c.gemini_configured then
        let (c1, r, _) := get_gemini_response c o messages
        (c1, r)
      else (c, get_mock_response messages)

/-- The loop of `_transcribe_audio_gemini` over its two audio-capable
variants: (text if some variant succeeded, the recorded error). An
auth-class failure records the error and returns `None` at once; other
failures advance. -/
def geminiTranscribeTry (g : String → Except String String) : List String → Option String × Option String
  | [] => (none, none)
  | m :: rest =>
    match g m with
    | .ok r => (some r, none)
    | .error e =>
      if isAuthError e then (none, some "Gemini API Key is invalid.")
      else if isNotFoundError e then geminiTranscribeTry g rest
      else geminiTranscribeTry g rest

/-- `LLMClient._transcribe_audio_gemini` (`src/llm_client.py` lines
146-190): resets `last_gemini_error`, reads the audio bytes (failure gives
`None`), then tries the two audio-capable variants. -/
def transcribe_audio_gemini (c : ClientState) (o : Oracles) :
    ClientState × Option String :=
  let c0 : ClientState := { c with last_gemini_error := none }
  if !o.audioReadOk then (c0, none)
  else
    let (res, err) := geminiTranscribeTry o.geminiAudio ["gemini-1.5-flash", "gemini-1.5-pro"]
    ({ c0 with last_gemini_error := err }, res)

/-- `LLMClient.transcribe_audio` (`src/llm_client.py` lines 119-144):
mock mode returns the fixed placeholder; otherwise Whisper is tried when
configured, then Gemini (whose falsy results — `None` or the empty string
— are discarded by `if result:`), and the call returns `none` (Python
`None`) when everything failed. -/
def transcribe_audio (c : ClientState) (o : Oracles) : ClientState × Option String :=
  if c.mock then (c, some "This is a mock transcription of the audio.")
  else
    match (if c.hasClient then some o.openaiWhisper else none) with
    | some (.ok t) => (c, some t)
    | _ =>
      if c.gemini_configured then
        let (c1, res) := transcribe_audio_gemini c o
        match res with
        | some s => if s ≠ "" then (c1, some s) else (c1, none)
        | none => (c1, none)
      else (c, none)

/-!
Theorems. `stageIdx` numbers the stages in their documented order
ROLE_SELECTION < INTERVIEW < FEEDBACK < FINISHED.
-/

/-- The position of a stage in the documented forward order. -/
def stageIdx : InterviewStage → Nat
  | .ROLE_SELECTION => 0
  | .INTERVIEW => 1
  | .FEEDBACK => 2
  | .FINISHED => 3

set_option maxRecDepth 8000

/-- C1: on a fresh controller, `start` with a role string sets the role,
sets stage INTERVIEW (so the greeting/ROLE_SELECTION stage is skipped),
and rewrites the transcript to the interviewer system prompt containing
the literal role name followed by the deterministic opening line. -/
theorem C1_start_with_role_skips_role_selection :
    (InterviewAgent.init.startWithRole "Data Scientist").1.role = some "Data Scientist" ∧
    (InterviewAgent.init.startWithRole "Data Scientist").1.stage = InterviewStage.INTERVIEW ∧
    (InterviewAgent.init.startWithRole "Data Scientist").1.stage
      ≠ InterviewStage.ROLE_SELECTION ∧
    (InterviewAgent.init.startWithRole "Data Scientist").1.history
      = [⟨"system", interviewerSystemPrompt "Data Scientist" 5⟩,
         ⟨"assistant", startMessage "Data Scientist"⟩] ∧
    pyContains (interviewerSystemPrompt "Data Scientist" 5) "Data Scientist" = true := by
  refine ⟨rfl, rfl, by decide, rfl, by decide⟩

/-- C2 counterexample: `process_input` has no turn-boundary exception
handler: with a provider client that raises, the exception propagates to
the caller instead of being returned as an error reply. -/
theorem C2_counterexample_exception_propagates :
    (process_input (fun _ => Except.error "boom") (InterviewAgent.init.start).1 "hello").reply
      = Except.error "boom" := by
  rfl

/-- C2 amended: `process_input` performs no error handling of its own: in
every stage other than FINISHED a provider-client exception propagates to
the caller unchanged; in FINISHED no provider call is made and the fixed
closed-session message is returned. -/
theorem C2_amended_no_turn_boundary_catch (a : InterviewAgent) (input e : String) :
    (a.stage ≠ InterviewStage.FINISHED →
      (process_input (fun _ => Except.error e) a input).reply = Except.error e) ∧
    (a.stage = InterviewStage.FINISHED →
      (process_input (fun _ => Except.error e) a input).reply = Except.ok finishedMessage) := by
  obtain ⟨hist, st, rl, qc, mq⟩ := a
  constructor
  · intro h
    cases st
    · rfl
    · unfold process_input handle_interview
      dsimp only
      split
      · rfl
      · rfl
    · rfl
    · exact absurd rfl h
  · intro h
    cases st
    · exact InterviewStage.noConfusion h
    · exact InterviewStage.noConfusion h
    · exact InterviewStage.noConfusion h
    · rfl

/-- Witness for C2's amended theorem at a concrete fresh agent. -/
theorem C2_amended_witness :
    (process_input (fun _ => Except.error "boom") InterviewAgent.init "hi").reply
      = Except.error "boom" :=
  (C2_amended_no_turn_boundary_catch InterviewAgent.init "hi" "boom").1 (by decide)

/-- C3: in ROLE_SELECTION, a provider reply whose marker text spans
several lines sets the role to the first line after the marker (stripped),
moves the stage to INTERVIEW, replaces the transcript with the
role-specific system prompt, and returns the fixed transition message
rather than the raw provider text. -/
theorem C3_role_confirmed_multiline (a : InterviewAgent) (input : String)
    (h : a.stage = InterviewStage.ROLE_SELECTION) :
    let get : LLM := fun _ => Except.ok "Role Confirmed: Software Engineer\nLet's begin."
    let r := process_input get a input
    r.agent.role = some "Software Engineer" ∧
    r.agent.stage = InterviewStage.INTERVIEW ∧
    r.agent.history = [⟨"system", interviewerSystemPrompt "Software Engineer" a.max_questions⟩,
                       ⟨"assistant", startMessage "Software Engineer"⟩] ∧
    r.reply = Except.ok (startMessage "Software Engineer") := by
  obtain ⟨hist, st, rl, qc, mq⟩ := a
  dsimp only at h
  subst h
  exact ⟨rfl, rfl, rfl, rfl⟩

/-- Witness for C3 at a started fresh agent. -/
theorem C3_witness :
    let get : LLM := fun _ => Except.ok "Role Confirmed: Software Engineer\nLet's begin."
    let r := process_input get (InterviewAgent.init.start).1 "I want software engineering"
    r.agent.role = some "Software Engineer" ∧
    r.agent.stage = InterviewStage.INTERVIEW ∧
    r.agent.history = [⟨"system", interviewerSystemPrompt "Software Engineer"
                          (InterviewAgent.init.start).1.max_questions⟩,
                       ⟨"assistant", startMessage "Software Engineer"⟩] ∧
    r.reply = Except.ok (startMessage "Software Engineer") :=
  C3_role_confirmed_multiline (InterviewAgent.init.start).1 "I want software engineering" rfl

/-- One `process_input` turn never decreases the stage, whatever the
provider oracle does (including raising). -/
theorem stage_mono_step (get : LLM) (a : InterviewAgent) (s : String) :
    stageIdx a.stage ≤ stageIdx (process_input get a s).agent.stage := by
  obtain ⟨hist, st, rl, qc, mq⟩ := a
  cases st
  · exact Nat.zero_le _
  · unfold process_input handle_interview
    dsimp only
    split
    · unfold end_interview
      dsimp only
      cases hget : get _ <;> simp [stageIdx]
    · cases hget : get _ <;> simp [stageIdx]
  · unfold process_input generate_response
    dsimp only
    cases hget : get _ <;> simp [stageIdx]
  · exact Nat.le_refl _

/-- Any number of `process_input` turns never decreases the stage. -/
theorem stage_mono_run (get : LLM) (a : InterviewAgent) (inputs : List String) :
    stageIdx a.stage ≤ stageIdx (runTurns get a inputs).stage := by
  induction inputs generalizing a with
  | nil => exact Nat.le_refl _
  | cons i is ih =>
    exact Nat.le_trans (stage_mono_step get a i) (ih (process_input get a i).agent)

/-- C4: along every sequence of `start` / `process_input` calls the stage
is monotonically non-decreasing in the order ROLE_SELECTION < INTERVIEW <
FEEDBACK < FINISHED: `start` never changes the stage, and a turn — for
every oracle behaviour, raising included — never assigns a smaller one,
hence neither does any sequence of turns. -/
theorem C4_stage_monotone (a : InterviewAgent) (get : LLM) (input : String)
    (inputs : List String) :
    (a.start).1.stage = a.stage ∧
    stageIdx a.stage ≤ stageIdx (process_input get a input).agent.stage ∧
    stageIdx a.stage ≤ stageIdx (runTurns get a inputs).stage :=
  ⟨rfl, stage_mono_step get a input, stage_mono_run get a inputs⟩

/-- C5: in INTERVIEW, an input containing an exit phrase (lower-cased
substring check) finishes the session in that same call, after exactly one
provider call — the feedback request over the transcript — and without
incrementing `question_count`, whatever the current count is. -/
theorem C5_exit_phrase_finishes (a : InterviewAgent) (get : LLM) (input : String)
    (h1 : a.stage = InterviewStage.INTERVIEW)
    (h2 : exitCommands.any (fun cmd => pyContains (pyLower input) cmd) = true)
    (h3 : ∀ ms, (get ms).isOk = true) :
    let r := process_input get a input
    r.agent.stage = InterviewStage.FINISHED ∧
    r.calls = [a.history ++ [⟨"user", input⟩, ⟨"system", feedbackInstruction⟩]] ∧
    r.agent.question_count = a.question_count := by
  obtain ⟨hist, st, rl, qc, mq⟩ := a
  dsimp only at h1
  subst h1
  dsimp only [process_input, handle_interview]
  rw [if_pos h2]
  unfold end_interview
  dsimp only
  cases hget : get (hist ++ [⟨"user", input⟩] ++ [⟨"system", feedbackInstruction⟩]) with
  | error e =>
    have h4 := h3 (hist ++ [⟨"user", input⟩] ++ [⟨"system", feedbackInstruction⟩])
    rw [hget] at h4
    simp [Except.isOk, Except.toBool] at h4
  | ok resp =>
    exact ⟨rfl, by simp, rfl⟩

/-- Witness for C5: a session deep into the interview finishes at once on
"END INTERVIEW". -/
theorem C5_witness :
    let a : InterviewAgent :=
      { InterviewAgent.init with stage := InterviewStage.INTERVIEW, question_count := 7 }
    let r := process_input (fun _ => Except.ok "Feedback: well done.") a "ok, END INTERVIEW now"
    r.agent.stage = InterviewStage.FINISHED ∧
    r.calls = [a.history ++ [⟨"user", "ok, END INTERVIEW now"⟩, ⟨"system", feedbackInstruction⟩]] ∧
    r.agent.question_count = a.question_count :=
  C5_exit_phrase_finishes
    { InterviewAgent.init with stage := InterviewStage.INTERVIEW, question_count := 7 }
    (fun _ => Except.ok "Feedback: well done.") "ok, END INTERVIEW now"
    rfl (by decide) (fun _ => rfl)

/-- C6 counterexample: in FINISHED, `process_input` does mutate the
session state: the user message is appended to the transcript, so the
history after the call differs from the history before it. -/
theorem C6_counterexample_history_grows :
    ¬ ((process_input (fun _ => Except.ok "x")
          { InterviewAgent.init with stage := InterviewStage.FINISHED } "bye").agent.history
        = ({ InterviewAgent.init with stage := InterviewStage.FINISHED } : InterviewAgent).history) := by
  decide

/-- C6 amended: in FINISHED, two calls with identical input both return
the fixed closed-session message, make no provider call, and leave stage,
role and `question_count` unchanged — but each call appends the user
message to the transcript. -/
theorem C6_amended_finished_idempotent_reply (a : InterviewAgent) (get1 get2 : LLM)
    (input : String) (h : a.stage = InterviewStage.FINISHED) :
    let r1 := process_input get1 a input
    let r2 := process_input get2 r1.agent input
    r1.reply = Except.ok finishedMessage ∧
    r2.reply = Except.ok finishedMessage ∧
    r1.calls = [] ∧ r2.calls = [] ∧
    r1.agent.stage = a.stage ∧ r2.agent.stage = a.stage ∧
    r1.agent.role = a.role ∧ r2.agent.role = a.role ∧
    r1.agent.question_count = a.question_count ∧
    r2.agent.question_count = a.question_count ∧
    r1.agent.history = a.history ++ [⟨"user", input⟩] ∧
    r2.agent.history = a.history ++ [⟨"user", input⟩, ⟨"user", input⟩] := by
  obtain ⟨hist, st, rl, qc, mq⟩ := a
  dsimp only at h
  subst h
  refine ⟨rfl, rfl, rfl, rfl, rfl, rfl, rfl, rfl, rfl, rfl, rfl, by simp [process_input]⟩

/-- Witness for C6's amended theorem at a concrete finished session. -/
theorem C6_amended_witness :
    let a : InterviewAgent := { InterviewAgent.init with stage := InterviewStage.FINISHED }
    let r1 := process_input (fun _ => Except.ok "x") a "bye"
    let r2 := process_input (fun _ => Except.ok "y") r1.agent "bye"
    r1.reply = Except.ok finishedMessage ∧
    r2.reply = Except.ok finishedMessage ∧
    r1.calls = [] ∧ r2.calls = [] ∧
    r1.agent.stage = a.stage ∧ r2.agent.stage = a.stage ∧
    r1.agent.role = a.role ∧ r2.agent.role = a.role ∧
    r1.agent.question_count = a.question_count ∧
    r2.agent.question_count = a.question_count ∧
    r1.agent.history = a.history ++ [⟨"user", "bye"⟩] ∧
    r2.agent.history = a.history ++ [⟨"user", "bye"⟩, ⟨"user", "bye"⟩] :=
  C6_amended_finished_idempotent_reply
    { InterviewAgent.init with stage := InterviewStage.FINISHED }
    (fun _ => Except.ok "x") (fun _ => Except.ok "y") "bye" rfl

/-- The offline responder always returns one of three non-empty canned
strings. -/
theorem get_mock_response_ne_empty (messages : List Msg) :
    get_mock_response messages ≠ "" := by
  unfold get_mock_response
  dsimp only
  split
  · decide
  · split
    · decide
    · decide

/-- When every Gemini variant fails, the loop produces no text. -/
theorem geminiTry_all_fail (g : String → Except String String) (ms : List String)
    (h : ∀ m r, g m ≠ Except.ok r) : (geminiTry g ms).1 = none := by
  induction ms with
  | nil => rfl
  | cons m rest ih =>
    unfold geminiTry
    cases hg : g m with
    | ok r => exact absurd hg (h m r)
    | error e =>
      dsimp only
      split
      · rfl
      · split <;> simp [ih]

/-- When every Gemini variant fails, the transcription loop produces no
text. -/
theorem geminiTranscribeTry_all_fail (g : String → Except String String) (ms : List String)
    (h : ∀ m r, g m ≠ Except.ok r) : (geminiTranscribeTry g ms).1 = none := by
  induction ms with
  | nil => rfl
  | cons m rest ih =>
    unfold geminiTranscribeTry
    cases hg : g m with
    | ok r => exact absurd hg (h m r)
    | error e =>
      dsimp only
      split
      · rfl
      · split <;> exact ih


/-- When every Gemini variant fails, `_get_gemini_response` answers with
the offline responder's text. -/
theorem get_gemini_response_all_fail (c : ClientState) (o : Oracles) (messages : List Msg)
    (h2 : ∀ m r, o.gemini m ≠ Except.ok r) :
    (get_gemini_response c o messages).2.1 = get_mock_response messages := by
  have hg := geminiTry_all_fail o.gemini geminiModels h2
  unfold get_gemini_response
  rcases hgt : geminiTry o.gemini geminiModels with ⟨res, err, att⟩
  rw [hgt] at hg
  simp at hg
  subst hg
  rfl

/-- When every Gemini variant fails, `_transcribe_audio_gemini` produces
no text. -/
theorem transcribe_audio_gemini_all_fail (c : ClientState) (o : Oracles)
    (h2 : ∀ m t, o.geminiAudio m ≠ Except.ok t) :
    (transcribe_audio_gemini c o).2 = none := by
  have hg := geminiTranscribeTry_all_fail o.geminiAudio ["gemini-1.5-flash", "gemini-1.5-pro"] h2
  unfold transcribe_audio_gemini
  split
  · rfl
  · exact hg

/-- C7: whatever the client configuration, when the OpenAI call and every
Gemini variant fail, `get_response` still returns — it is total by
construction, never re-raising a provider exception — and its reply is the
offline responder's text, which is never empty. -/
theorem C7_get_response_all_fail_returns_mock (c : ClientState) (o : Oracles)
    (messages : List Msg)
    (h1 : ∀ r, o.openaiChat ≠ Except.ok r)
    (h2 : ∀ m r, o.gemini m ≠ Except.ok r) :
    (get_response c o messages).2 = get_mock_response messages ∧
    (get_response c o messages).2 ≠ "" := by
  have hgem := get_gemini_response_all_fail c o messages h2
  have hmain : (get_response c o messages).2 = get_mock_response messages := by
    unfold get_response
    split
    · rfl
    · cases hc : c.hasClient with
      | false =>
        simp only [hc, Bool.false_eq_true, if_false]
        split
        · exact hgem
        · rfl
      | true =>
        simp only [hc, if_true]
        cases ho : o.openaiChat with
        | ok r => exact absurd ho (h1 r)
        | error e =>
          simp only [ho]
          split
          · exact hgem
          · rfl
  exact ⟨hmain, hmain ▸ get_mock_response_ne_empty messages⟩

/-- Witness for C7: a fully configured client whose providers all fail
still answers with the non-empty offline text. -/
theorem C7_witness :
    (get_response ⟨false, true, true, none⟩
        ⟨Except.error "Error code: 429 - insufficient_quota",
         fun _ => Except.error "503 overloaded",
         Except.error "quota", fun _ => Except.error "quota", true⟩
        [⟨"user", "I want to practice"⟩]).2
      = get_mock_response [⟨"user", "I want to practice"⟩] ∧
    (get_response ⟨false, true, true, none⟩
        ⟨Except.error "Error code: 429 - insufficient_quota",
         fun _ => Except.error "503 overloaded",
         Except.error "quota", fun _ => Except.error "quota", true⟩
        [⟨"user", "I want to practice"⟩]).2 ≠ "" :=
  C7_get_response_all_fail_returns_mock ⟨false, true, true, none⟩
    ⟨Except.error "Error code: 429 - insufficient_quota",
     fun _ => Except.error "503 overloaded",
     Except.error "quota", fun _ => Except.error "quota", true⟩
    [⟨"user", "I want to practice"⟩]
    (fun _ h => Except.noConfusion h) (fun _ _ h => Except.noConfusion h)

/-- C8: with offline mode not selected, `transcribe_audio` returns the
failure value `none` — never fabricated text — when the Whisper call and
every Gemini variant fail, whatever providers are configured. -/
theorem C8_transcribe_all_fail_returns_failure (c : ClientState) (o : Oracles)
    (h0 : c.mock = false)
    (h1 : ∀ t, o.openaiWhisper ≠ Except.ok t)
    (h2 : ∀ m t, o.geminiAudio m ≠ Except.ok t) :
    (transcribe_audio c o).2 = none := by
  have hgem := transcribe_audio_gemini_all_fail c o h2
  unfold transcribe_audio
  simp only [h0, Bool.false_eq_true, if_false]
  cases hc : c.hasClient with
  | false =>
    simp only [hc, Bool.false_eq_true, if_false]
    split
    · rcases hp : transcribe_audio_gemini c o with ⟨c1, res⟩
      rw [hp] at hgem
      simp at hgem
      subst hgem
      rfl
    · rfl
  | true =>
    simp only [hc, if_true]
    cases ho : o.openaiWhisper with
    | ok t => exact absurd ho (h1 t)
    | error e =>
      simp only [ho]
      split
      · rcases hp : transcribe_audio_gemini c o with ⟨c1, res⟩
        rw [hp] at hgem
        simp at hgem
        subst hgem
        rfl
      · rfl

/-- Witness for C8: a configured, non-offline client with failing
providers reports transcription failure. -/
theorem C8_witness :
    (transcribe_audio ⟨false, true, true, none⟩
        ⟨Except.error "x", fun _ => Except.error "x",
         Except.error "Error code: 429 - insufficient_quota",
         fun _ => Except.error "500 error", true⟩).2 = none :=
  C8_transcribe_all_fail_returns_failure ⟨false, true, true, none⟩
    ⟨Except.error "x", fun _ => Except.error "x",
     Except.error "Error code: 429 - insufficient_quota",
     fun _ => Except.error "500 error", true⟩
    rfl (fun _ h => Except.noConfusion h) (fun _ _ h => Except.noConfusion h)

/-- The variants `_get_gemini_response` attempts are an initial segment of
its fixed variant list. -/
theorem geminiTry_attempts_prefix (g : String → Except String String) (ms : List String) :
    ∃ n, (geminiTry g ms).2.2 = ms.take n := by
  induction ms with
  | nil => exact ⟨0, rfl⟩
  | cons m rest ih =>
    obtain ⟨n, hn⟩ := ih
    unfold geminiTry
    cases hg : g m with
    | ok r => exact ⟨1, rfl⟩
    | error e =>
      dsimp only
      split
      · exact ⟨1, rfl⟩
      · rcases hgt : geminiTry g rest with ⟨res, err, att⟩
        rw [hgt] at hn
        dsimp only at hn
        split
        · exact ⟨n + 1, by simp [hn]⟩
        · exact ⟨n + 1, by simp [hn]⟩

/-- The attempt list over a non-empty variant list always starts with the
first variant. -/
theorem geminiTry_attempts_head (g : String → Except String String) (m : String)
    (rest : List String) :
    ∃ tl, (geminiTry g (m :: rest)).2.2 = m :: tl := by
  unfold geminiTry
  cases hg : g m with
  | ok r => exact ⟨[], rfl⟩
  | error e =>
    dsimp only
    split
    · exact ⟨[], rfl⟩
    · rcases hgt : geminiTry g rest with ⟨res, err, att⟩
      split
      · exact ⟨att, rfl⟩
      · exact ⟨att, rfl⟩

/-- The attempt list of `_get_gemini_response` is that of its loop. -/
theorem get_gemini_response_attempts (c : ClientState) (o : Oracles) (messages : List Msg) :
    (get_gemini_response c o messages).2.2 = (geminiTry o.gemini geminiModels).2.2 := by
  unfold get_gemini_response
  rcases geminiTry o.gemini geminiModels with ⟨res, err, att⟩
  cases res <;> rfl

/-- Membership-scoped variant of `geminiTry_all_fail`: the loop only ever
consults the oracle on variants of its list. -/
theorem geminiTry_all_fail_mem (g : String → Except String String) (ms : List String)
    (h : ∀ m ∈ ms, ∀ r, g m ≠ Except.ok r) : (geminiTry g ms).1 = none := by
  induction ms with
  | nil => rfl
  | cons m rest ih =>
    unfold geminiTry
    cases hg : g m with
    | ok r => exact absurd hg (h m (List.mem_cons_self m rest) r)
    | error e =>
      dsimp only
      split
      · rfl
      · have ih1 := ih (fun x hx r => h x (List.mem_cons_of_mem m hx) r)
        split <;> simp [ih1]

/-- A non-authentication failure on the first variant makes the loop
record that variant as attempted and continue with the rest. -/
theorem geminiTry_error_skip (g : String → Except String String) (m : String)
    (rest : List String) (e : String)
    (hm : g m = Except.error e) (ha : isAuthError e = false) :
    geminiTry g (m :: rest)
      = ((geminiTry g rest).1, (geminiTry g rest).2.1, m :: (geminiTry g rest).2.2) := by
  rcases hgt : geminiTry g rest with ⟨res, err, att⟩
  unfold geminiTry
  rw [hm]
  simp only [ha, Bool.false_eq_true, if_false, ite_self]
  rw [hgt]

/-- C9: the secondary provider's model variants are tried in the fixed
order `geminiModels` (the attempt list is always an initial segment of
it); an authentication-class failure on the first variant aborts the loop
at once, records the error for the caller and falls through to the offline
responder; a failure of any other class (not-found included) advances to
the next variant, at the first and at the second position; and when every
variant fails, the reply is the offline responder's. -/
theorem C9_gemini_variant_order_and_aborts (c : ClientState) (o : Oracles)
    (messages : List Msg) :
    (∃ n, (get_gemini_response c o messages).2.2 = geminiModels.take n) ∧
    (∀ e, o.gemini "gemini-1.5-flash" = Except.error e → isAuthError e = true →
      (get_gemini_response c o messages).2.2 = ["gemini-1.5-flash"] ∧
      (get_gemini_response c o messages).1.last_gemini_error
        = some "Gemini API Key is invalid." ∧
      (get_gemini_response c o messages).2.1 = get_mock_response messages) ∧
    (∀ e, o.gemini "gemini-1.5-flash" = Except.error e → isAuthError e = false →
      "gemini-1.5-pro" ∈ (get_gemini_response c o messages).2.2) ∧
    (∀ ef ep, o.gemini "gemini-1.5-flash" = Except.error ef → isAuthError ef = false →
      o.gemini "gemini-1.5-pro" = Except.error ep → isAuthError ep = false →
      "gemini-pro" ∈ (get_gemini_response c o messages).2.2) ∧
    ((∀ m ∈ geminiModels, ∀ r, o.gemini m ≠ Except.ok r) →
      (get_gemini_response c o messages).2.1 = get_mock_response messages) := by
  refine ⟨?_, ?_, ?_, ?_, ?_⟩
  · rw [get_gemini_response_attempts]
    exact geminiTry_attempts_prefix o.gemini geminiModels
  · intro e hf ha
    have hgt : geminiTry o.gemini geminiModels
        = (none, some "Gemini API Key is invalid.", ["gemini-1.5-flash"]) := by
      unfold geminiModels geminiTry
      rw [hf]
      simp [ha]
    refine ⟨?_, ?_, ?_⟩ <;> simp [get_gemini_response, hgt]
  · intro e hf ha
    have hstep := geminiTry_error_skip o.gemini "gemini-1.5-flash"
      ["gemini-1.5-pro", "gemini-pro"] e hf ha
    obtain ⟨tl, htl⟩ := geminiTry_attempts_head o.gemini "gemini-1.5-pro" ["gemini-pro"]
    rw [get_gemini_response_attempts]
    show "gemini-1.5-pro"
      ∈ (geminiTry o.gemini ("gemini-1.5-flash" :: ["gemini-1.5-pro", "gemini-pro"])).2.2
    rw [hstep]
    dsimp only
    rw [htl]
    simp
  · intro ef ep hf haf hp hap
    have hstep1 := geminiTry_error_skip o.gemini "gemini-1.5-flash"
      ["gemini-1.5-pro", "gemini-pro"] ef hf haf
    have hstep2 := geminiTry_error_skip o.gemini "gemini-1.5-pro" ["gemini-pro"] ep hp hap
    obtain ⟨tl, htl⟩ := geminiTry_attempts_head o.gemini "gemini-pro" []
    rw [get_gemini_response_attempts]
    show "gemini-pro"
      ∈ (geminiTry o.gemini ("gemini-1.5-flash" :: ["gemini-1.5-pro", "gemini-pro"])).2.2
    rw [hstep1]
    dsimp only
    rw [hstep2]
    dsimp only
    rw [htl]
    simp
  · intro hall
    have hg := geminiTry_all_fail_mem o.gemini geminiModels hall
    unfold get_gemini_response
    rcases hgt : geminiTry o.gemini geminiModels with ⟨res, err, att⟩
    rw [hgt] at hg
    dsimp only at hg
    subst hg
    rfl

/-- Witness for C9: concrete oracles exercising the auth-abort, the
skip-to-next-variant and the exhaustion scenarios. -/
theorem C9_witness :
    (∃ n, (get_gemini_response ⟨false, true, true, none⟩
        ⟨Except.error "x", fun _ => Except.error "Error 503: backend overloaded",
         Except.error "x", fun _ => Except.error "x", true⟩
        [⟨"user", "hello"⟩]).2.2 = geminiModels.take n) ∧
    ((get_gemini_response ⟨false, true, true, none⟩
        ⟨Except.error "x", fun _ => Except.error "API_KEY_INVALID: bad key",
         Except.error "x", fun _ => Except.error "x", true⟩
        [⟨"user", "hello"⟩]).2.2 = ["gemini-1.5-flash"] ∧
     (get_gemini_response ⟨false, true, true, none⟩
        ⟨Except.error "x", fun _ => Except.error "API_KEY_INVALID: bad key",
         Except.error "x", fun _ => Except.error "x", true⟩
        [⟨"user", "hello"⟩]).1.last_gemini_error = some "Gemini API Key is invalid." ∧
     (get_gemini_response ⟨false, true, true, none⟩
        ⟨Except.error "x", fun _ => Except.error "API_KEY_INVALID: bad key",
         Except.error "x", fun _ => Except.error "x", true⟩
        [⟨"user", "hello"⟩]).2.1 = get_mock_response [⟨"user", "hello"⟩]) ∧
    "gemini-1.5-pro" ∈ (get_gemini_response ⟨false, true, true, none⟩
        ⟨Except.error "x", fun _ => Except.error "Error 503: backend overloaded",
         Except.error "x", fun _ => Except.error "x", true⟩
        [⟨"user", "hello"⟩]).2.2 ∧
    "gemini-pro" ∈ (get_gemini_response ⟨false, true, true, none⟩
        ⟨Except.error "x", fun _ => Except.error "Error 503: backend overloaded",
         Except.error "x", fun _ => Except.error "x", true⟩
        [⟨"user", "hello"⟩]).2.2 ∧
    (get_gemini_response ⟨false, true, true, none⟩
        ⟨Except.error "x", fun _ => Except.error "Error 503: backend overloaded",
         Except.error "x", fun _ => Except.error "x", true⟩
        [⟨"user", "hello"⟩]).2.1 = get_mock_response [⟨"user", "hello"⟩] := by
  refine ⟨?_, ?_, ?_, ?_, ?_⟩
  · exact (C9_gemini_variant_order_and_aborts ⟨false, true, true, none⟩
      ⟨Except.error "x", fun _ => Except.error "Error 503: backend overloaded",
       Except.error "x", fun _ => Except.error "x", true⟩ [⟨"user", "hello"⟩]).1
  · exact (C9_gemini_variant_order_and_aborts ⟨false, true, true, none⟩
      ⟨Except.error "x", fun _ => Except.error "API_KEY_INVALID: bad key",
       Except.error "x", fun _ => Except.error "x", true⟩ [⟨"user", "hello"⟩]).2.1
      "API_KEY_INVALID: bad key" rfl (by decide)
  · exact (C9_gemini_variant_order_and_aborts ⟨false, true, true, none⟩
      ⟨Except.error "x", fun _ => Except.error "Error 503: backend overloaded",
       Except.error "x", fun _ => Except.error "x", true⟩ [⟨"user", "hello"⟩]).2.2.1
      "Error 503: backend overloaded" rfl (by decide)
  · exact (C9_gemini_variant_order_and_aborts ⟨false, true, true, none⟩
      ⟨Except.error "x", fun _ => Except.error "Error 503: backend overloaded",
       Except.error "x", fun _ => Except.error "x", true⟩ [⟨"user", "hello"⟩]).2.2.2.1
      "Error 503: backend overloaded" "Error 503: backend overloaded"
      rfl (by decide) rfl (by decide)
  · exact (C9_gemini_variant_order_and_aborts ⟨false, true, true, none⟩
      ⟨Except.error "x", fun _ => Except.error "Error 503: backend overloaded",
       Except.error "x", fun _ => Except.error "x", true⟩ [⟨"user", "hello"⟩]).2.2.2.2
      (fun _ _ r h => Except.noConfusion h)

/-- C10: a client constructed with no primary credential, no secondary
credential and offline mode not requested silently switches itself to mock
mode, and from then on `transcribe_audio` returns the fixed placeholder
text instead of a failure value, whatever the provider oracles would do. -/
theorem C10_keyless_client_mocks_transcription (genaiAvailable geminiConfigOk : Bool)
    (o : Oracles) :
    (LLMClient.init none false none none genaiAvailable geminiConfigOk).mock = true ∧
    (transcribe_audio (LLMClient.init none false none none genaiAvailable geminiConfigOk) o).2
      = some "This is a mock transcription of the audio." :=
  ⟨rfl, rfl⟩
